import Mathlib

/-!
# Verification of the ATDev_INA220 driver (src/ATDev_INA220.cpp)

Shallow embedding of the INA220 current/power-monitor driver.  The driver is a
small synchronous state machine: a device handle holding a cached calibration
constant, two float conversion scalars and a last-operation success flag, plus
operations that issue 16-bit big-endian register transactions over a two-wire
transport.  We embed:

* the controller state (`State`) with its constructor defaults;
* every bus transaction an operation performs, as an explicit `Transaction`
  trace, with the outcome of each transport call passed in as a `Bool`
  parameter (the transport is external and may fail per call);
* the four calibration-profile selection operations, `init`/`begin`,
  the raw reads, the float unit conversions and `powerSave`;
* binary32 (IEEE single precision) arithmetic over exact rationals with a
  round-to-nearest-even rounding function `roundF32`, since the conversion
  scalars are C `float`s (`0.8f`, `6.4f`, ... are not exact binary fractions).

Machine integers are modelled as `ℕ` with explicit reductions `% 2^16` where
the code narrows, and `toInt16` for the `uint16_t → int16_t` casts.
-/

namespace INA220

/-! ## Register map and configuration constants

The register addresses and the `INA220_CONFIG_*` field codes are declared in
the driver's header, which is not part of the repository snapshot under
verification; only `src/ATDev_INA220.cpp` is.  They are therefore modelled
from the specification. -/

/-- Modelled from the spec: register map of §6 (header `ATDev_INA220.h` with
the `INA220_REG_*` macros is missing).  Configuration register address. -/
def INA220_REG_CONFIG : ℕ := 0x00

/-- Modelled from the spec: §6 register map.  Shunt-voltage register. -/
def INA220_REG_SHUNTVOLTAGE : ℕ := 0x01

/-- Modelled from the spec: §6 register map.  Bus-voltage register. -/
def INA220_REG_BUSVOLTAGE : ℕ := 0x02

/-- Modelled from the spec: §6 register map.  Power register. -/
def INA220_REG_POWER : ℕ := 0x03

/-- Modelled from the spec: §6 register map.  Current register. -/
def INA220_REG_CURRENT : ℕ := 0x04

/-- Modelled from the spec: §6 register map.  Calibration register. -/
def INA220_REG_CALIBRATION : ℕ := 0x05

/-- Modelled from the spec: the `INA220_CONFIG_*` field codes live in the
missing header.  The configuration register packs, per §4.2/§6: mode in bits
[2:0], shunt-ADC setting in bits [6:3], bus-ADC setting in bits [10:7],
shunt gain (PG) in bits [12:11] and bus-voltage range (BRNG) in bit 13.
Bus-voltage range selector: 16V. -/
def INA220_CONFIG_BVOLTAGERANGE_16V : ℕ := 0x0000

/-- Modelled from the spec: bus-voltage range selector, 32V (BRNG bit set). -/
def INA220_CONFIG_BVOLTAGERANGE_32V : ℕ := 0x2000

/-- Modelled from the spec: shunt gain 1, ±40mV range (PG = 0). -/
def INA220_CONFIG_GAIN_1_40MV : ℕ := 0x0000

/-- Modelled from the spec: shunt gain 8, ±320mV range (PG = 3). -/
def INA220_CONFIG_GAIN_8_320MV : ℕ := 0x1800

/-- Modelled from the spec: bus-ADC resolution 12 bit. -/
def INA220_CONFIG_BADCRES_12BIT : ℕ := 0x0180

/-- Modelled from the spec: shunt-ADC 12 bit, 1 sample, 532µs conversion. -/
def INA220_CONFIG_SADCRES_12BIT_1S_532US : ℕ := 0x0018

/-- Modelled from the spec: operating-mode code, power-down. -/
def INA220_CONFIG_MODE_POWERDOWN : ℕ := 0x00

/-- Modelled from the spec: operating-mode code, continuous shunt-and-bus
voltage sampling. -/
def INA220_CONFIG_MODE_SANDBVOLT_CONTINUOUS : ℕ := 0x07

/-! ## Binary32 arithmetic over exact rationals

The conversion scalars are C `float`s.  A finite binary32 value is an exact
rational; we model float arithmetic as exact rational arithmetic followed by
`roundF32`, IEEE round-to-nearest with ties to even.  Overflow and subnormals
are outside the numeric range this driver ever touches (all magnitudes lie
well inside the normal range), so the model covers normal values only.
Division by zero yields a non-finite result (±∞ or NaN), which has no
rational denotation: the model's division is `Option`-valued and returns
`none` there. -/

/-- Round a rational to the nearest integer, ties to even. -/
def rnEven (x : ℚ) : ℤ :=
  let f := ⌊x⌋
  if x - f < 1 / 2 then f
  else if 1 / 2 < x - f then f + 1
  else if f % 2 = 0 then f else f + 1

/-- Round a rational to the nearest binary32 value (round-to-nearest,
ties-to-even), as an exact rational.  Normal range only (see above):
the significand is rounded to 24 bits at the value's binade. -/
def roundF32 (q : ℚ) : ℚ :=
  if q = 0 then 0
  else
    let a := |q|
    let e := Int.log 2 a
    let m := rnEven (a * 2 ^ (23 - e))
    (if q < 0 then -1 else 1) * (m : ℚ) * 2 ^ (e - 23)

/-- binary32 multiplication: exact product, then one rounding. -/
def fmul32 (a b : ℚ) : ℚ := roundF32 (a * b)

/-- binary32 division: exact quotient, then one rounding; division by zero
produces a non-finite value, modelled as `none`. -/
def fdiv32 (a b : ℚ) : Option ℚ :=
  if b = 0 then none else some (roundF32 (a / b))

/-! ## Controller state and bus transactions -/

/-- The mutable members of `ATDev_INA220` that the claims concern:
`INA220_calValue` (uint16 calibration constant), the two float conversion
scalars and the `_success` flag. -/
structure State where
  calValue : ℕ
  currentDivider_mA : ℚ
  powerMultiplier_mW : ℚ
  _success : Bool
  deriving DecidableEq, Repr

/-- One bus transaction of a 16-bit big-endian register accessor:
a 2-byte write of `value` to register `reg`, or a 2-byte read of `reg`. -/
inductive Transaction where
  | write16 (reg : ℕ) (value : ℕ) : Transaction
  | read16 (reg : ℕ) : Transaction
  deriving DecidableEq, Repr

/-- `ATDev_INA220::ATDev_INA220(addr)`: the constructor zeroes the current
divider and the power multiplier.  The `_success` member is not initialised
by the constructor, so its initial value `s0` is a parameter. -/
def mkATDev_INA220 (s0 : Bool) : State :=
  { calValue := 0
    currentDivider_mA := 0
    powerMultiplier_mW := 0
    _success := s0 }

/-- `ATDev_INA220::success()`: returns the stored flag. -/
def success (s : State) : Bool := s._success

/-- `uint16_t → int16_t` two's-complement reinterpretation. -/
def toInt16 (v : ℕ) : ℤ :=
  if v % 65536 < 32768 then ((v % 65536 : ℕ) : ℤ)
  else ((v % 65536 : ℕ) : ℤ) - 65536

/-- Modelled from the spec: `Adafruit_BusIO_RegisterBits::write` is not under
`src/`; §4.1 specifies the bit-slice write as masking the input to `width`
bits and left-shifting it into position at `offset`, without reading the
register first, so every bit outside the slice is zero in the payload. -/
def bitsWritePayload (value offset width : ℕ) : ℕ :=
  ((value % 2 ^ width) * 2 ^ offset) % 2 ^ 16

/-! ## Calibration-profile selection operations

Each operation takes the outcomes of its two transport writes (`calOk` for
the calibration-register write, whose return value the code discards, and
`cfgOk` for the configuration-register write, which is assigned to
`_success`) and returns the new state together with its transaction trace. -/

/-- `ATDev_INA220::setCalibration_ATDev_32V_2A()`: cal 32000, divider
`3.125f`, multiplier `6.4f`, 32V range, gain 1 (±40mV). -/
def setCalibration_ATDev_32V_2A (s : State) (calOk cfgOk : Bool) :
    State × List Transaction :=
  let config := INA220_CONFIG_BVOLTAGERANGE_32V |||
    INA220_CONFIG_GAIN_1_40MV ||| INA220_CONFIG_BADCRES_12BIT |||
    INA220_CONFIG_SADCRES_12BIT_1S_532US |||
    INA220_CONFIG_MODE_SANDBVOLT_CONTINUOUS
  ({ calValue := 32000
     currentDivider_mA := roundF32 (3125 / 1000)
     powerMultiplier_mW := roundF32 (32 / 5)
     _success := cfgOk },
   [Transaction.write16 INA220_REG_CALIBRATION 32000,
    Transaction.write16 INA220_REG_CONFIG config])

/-- `ATDev_INA220::setCalibration_32V_2A()`: cal 4096, divider 10,
multiplier 2, 32V range, gain 8 (±320mV). -/
def setCalibration_32V_2A (s : State) (calOk cfgOk : Bool) :
    State × List Transaction :=
  let config := INA220_CONFIG_BVOLTAGERANGE_32V |||
    INA220_CONFIG_GAIN_8_320MV ||| INA220_CONFIG_BADCRES_12BIT |||
    INA220_CONFIG_SADCRES_12BIT_1S_532US |||
    INA220_CONFIG_MODE_SANDBVOLT_CONTINUOUS
  ({ calValue := 4096
     currentDivider_mA := 10
     powerMultiplier_mW := 2
     _success := cfgOk },
   [Transaction.write16 INA220_REG_CALIBRATION 4096,
    Transaction.write16 INA220_REG_CONFIG config])

/-- `ATDev_INA220::setCalibration_32V_1A()`: cal 10240, divider 25,
multiplier `0.8f`, 32V range, gain 8 (±320mV). -/
def setCalibration_32V_1A (s : State) (calOk cfgOk : Bool) :
    State × List Transaction :=
  let config := INA220_CONFIG_BVOLTAGERANGE_32V |||
    INA220_CONFIG_GAIN_8_320MV ||| INA220_CONFIG_BADCRES_12BIT |||
    INA220_CONFIG_SADCRES_12BIT_1S_532US |||
    INA220_CONFIG_MODE_SANDBVOLT_CONTINUOUS
  ({ calValue := 10240
     currentDivider_mA := 25
     powerMultiplier_mW := roundF32 (4 / 5)
     _success := cfgOk },
   [Transaction.write16 INA220_REG_CALIBRATION 10240,
    Transaction.write16 INA220_REG_CONFIG config])

/-- `ATDev_INA220::setCalibration_16V_400mA()`: cal 8192, divider 20,
multiplier `1.0f`, 16V range, gain 1 (±40mV). -/
def setCalibration_16V_400mA (s : State) (calOk cfgOk : Bool) :
    State × List Transaction :=
  let config := INA220_CONFIG_BVOLTAGERANGE_16V |||
    INA220_CONFIG_GAIN_1_40MV ||| INA220_CONFIG_BADCRES_12BIT |||
    INA220_CONFIG_SADCRES_12BIT_1S_532US |||
    INA220_CONFIG_MODE_SANDBVOLT_CONTINUOUS
  ({ calValue := 8192
     currentDivider_mA := 20
     powerMultiplier_mW := 1
     _success := cfgOk },
   [Transaction.write16 INA220_REG_CALIBRATION 8192,
    Transaction.write16 INA220_REG_CONFIG config])

/-- `ATDev_INA220::init()`: applies the ATDev 32V/2A calibration. -/
def init (s : State) (calOk cfgOk : Bool) : State × List Transaction :=
  setCalibration_ATDev_32V_2A s calOk cfgOk

/-- `ATDev_INA220::begin(theWire)`: if the transport handle fails to start
(`beginOk = false`) it returns `false` without touching the device;
otherwise it runs `init()` and returns `true`.  Result: (returned Bool,
new state, transaction trace). -/
def begin (s : State) (beginOk calOk cfgOk : Bool) :
    Bool × State × List Transaction :=
  if beginOk then
    let r := init s calOk cfgOk
    (true, r.1, r.2)
  else
    (false, s, [])

/-! ## Raw register reads

Reads take the 16-bit value `v` the transport returns and the outcome `rdOk`
of the read; the result triple is (new state, returned int16, trace). -/

/-- `ATDev_INA220::getBusVoltage_raw()`: reads the bus-voltage register,
shifts right 3 to drop the CNVR/OVF status bits and multiplies by 4;
the product is cast to `int16_t`. -/
def getBusVoltage_raw (s : State) (v : ℕ) (rdOk : Bool) :
    State × ℤ × List Transaction :=
  ({ s with _success := rdOk },
   toInt16 (((v % 2 ^ 16) >>> 3) * 4),
   [Transaction.read16 INA220_REG_BUSVOLTAGE])

/-- `ATDev_INA220::getShuntVoltage_raw()`: reads the shunt-voltage register
verbatim. -/
def getShuntVoltage_raw (s : State) (v : ℕ) (rdOk : Bool) :
    State × ℤ × List Transaction :=
  ({ s with _success := rdOk },
   toInt16 v,
   [Transaction.read16 INA220_REG_SHUNTVOLTAGE])

/-- `ATDev_INA220::getCurrent_raw()`: first re-writes the calibration
register with the stored constant (return value discarded), then reads the
current register; `_success` is set from the read only. -/
def getCurrent_raw (s : State) (calOk : Bool) (v : ℕ) (rdOk : Bool) :
    State × ℤ × List Transaction :=
  ({ s with _success := rdOk },
   toInt16 v,
   [Transaction.write16 INA220_REG_CALIBRATION s.calValue,
    Transaction.read16 INA220_REG_CURRENT])

/-- `ATDev_INA220::getPower_raw()`: first re-writes the calibration register
with the stored constant (return value discarded), then reads the power
register; `_success` is set from the read only. -/
def getPower_raw (s : State) (calOk : Bool) (v : ℕ) (rdOk : Bool) :
    State × ℤ × List Transaction :=
  ({ s with _success := rdOk },
   toInt16 v,
   [Transaction.write16 INA220_REG_CALIBRATION s.calValue,
    Transaction.read16 INA220_REG_POWER])

/-! ## Unit conversions (float) -/

/-- `ATDev_INA220::getCurrent_mA()`: raw current (int16, exact in binary32)
divided by the stored current divider in float arithmetic.  `none` denotes a
non-finite float result (division by zero). -/
def getCurrent_mA (s : State) (calOk : Bool) (v : ℕ) (rdOk : Bool) :
    State × Option ℚ × List Transaction :=
  let r := getCurrent_raw s calOk v rdOk
  (r.1, fdiv32 (r.2.1 : ℚ) s.currentDivider_mA, r.2.2)

/-- `ATDev_INA220::getPower_mW()`: raw power (int16, exact in binary32)
multiplied by the stored power multiplier in float arithmetic. -/
def getPower_mW (s : State) (calOk : Bool) (v : ℕ) (rdOk : Bool) :
    State × ℚ × List Transaction :=
  let r := getPower_raw s calOk v rdOk
  (r.1, fmul32 (r.2.1 : ℚ) s.powerMultiplier_mW, r.2.2)

/-! ## Power-save mode -/

/-- `ATDev_INA220::powerSave(on)`: writes the 3-bit mode field at offset 0 of
the configuration register through the bit-slice write (which zeroes all
other bits of the payload); `_success` is set from that write. -/
def powerSave (s : State) (b : Bool) (writeOk : Bool) :
    State × List Transaction :=
  let code := if b then INA220_CONFIG_MODE_POWERDOWN
              else INA220_CONFIG_MODE_SANDBVOLT_CONTINUOUS
  ({ s with _success := writeOk },
   [Transaction.write16 INA220_REG_CONFIG (bitsWritePayload code 0 3)])

/-! ## The calibration-profile enumeration

The driver's profile-selection surface, as an enumeration: one constructor
per no-argument `setCalibration_*` member function defined in
`src/ATDev_INA220.cpp`, with `applyCalibration` dispatching to it. -/

/-- The calibration-profile selection operations the controller exposes,
one constructor per `setCalibration_*` member function in the source. -/
inductive CalProfile where
  | atdev_32V_2A : CalProfile
  | std_32V_2A : CalProfile
  | std_32V_1A : CalProfile
  | std_16V_400mA : CalProfile
  deriving DecidableEq, Repr, Fintype

/-- Dispatch a profile selection to the member function it names. -/
def applyCalibration (p : CalProfile) (s : State) (calOk cfgOk : Bool) :
    State × List Transaction :=
  match p with
  | .atdev_32V_2A => setCalibration_ATDev_32V_2A s calOk cfgOk
  | .std_32V_2A => setCalibration_32V_2A s calOk cfgOk
  | .std_32V_1A => setCalibration_32V_1A s calOk cfgOk
  | .std_16V_400mA => setCalibration_16V_400mA s calOk cfgOk

/-- The calibration constant each profile stores: a compile-time constant of
the source, not a function of any runtime state. -/
def calConst : CalProfile → ℕ
  | .atdev_32V_2A => 32000
  | .std_32V_2A => 4096
  | .std_32V_1A => 10240
  | .std_16V_400mA => 8192

/-- The current divider each profile stores (exact binary32 value of the
source's float literal). -/
def dividerConst : CalProfile → ℚ
  | .atdev_32V_2A => roundF32 (3125 / 1000)
  | .std_32V_2A => 10
  | .std_32V_1A => 25
  | .std_16V_400mA => 20

/-- The power multiplier each profile stores (exact binary32 value of the
source's float literal). -/
def multiplierConst : CalProfile → ℚ
  | .atdev_32V_2A => roundF32 (32 / 5)
  | .std_32V_2A => 2
  | .std_32V_1A => roundF32 (4 / 5)
  | .std_16V_400mA => 1

/-! ## Helper lemmas: integer casts and concrete binary32 evaluations -/

theorem toInt16_of_lt {v : ℕ} (h : v < 32768) : toInt16 v = (v : ℤ) := by
  have h2 : v % 65536 = v := Nat.mod_eq_of_lt (by omega)
  simp [toInt16, h2, h]

theorem rnEven_eq_floor {x : ℚ} {f : ℤ} (hf : ⌊x⌋ = f) (h : x - f < 1 / 2) :
    rnEven x = f := by
  simp only [rnEven, hf]
  rw [if_pos h]

theorem rnEven_eq_ceil {x : ℚ} {f : ℤ} (hf : ⌊x⌋ = f) (h : 1 / 2 < x - f) :
    rnEven x = f + 1 := by
  have h2 : ¬ (x - (f : ℚ) < 1 / 2) := by linarith
  simp only [rnEven, hf]
  rw [if_neg h2, if_pos h]

theorem roundF32_pos {q : ℚ} {e m : ℤ} (hq : 0 < q)
    (he : Int.log 2 q = e) (hm : rnEven (q * 2 ^ (23 - e)) = m) :
    roundF32 q = (m : ℚ) * 2 ^ (e - 23) := by
  have hq0 : q ≠ 0 := ne_of_gt hq
  have habs : |q| = q := abs_of_pos hq
  have hneg : ¬ (q < 0) := not_lt.2 hq.le
  simp only [roundF32, if_neg hq0, habs, he, hm, if_neg hneg, one_mul]

theorem log2_08 : Int.log 2 ((4 : ℚ) / 5) = -1 := by
  rw [Int.log_of_right_le_one 2 (by norm_num)]
  have h2 : ((4 : ℚ) / 5)⁻¹ = 5 / 4 := by norm_num
  rw [h2]
  have h3 : (⌈(5 / 4 : ℚ)⌉₊) = 2 := by
    rw [Nat.ceil_eq_iff (by norm_num)]
    norm_num
  rw [h3]
  have h4 : Nat.clog 2 2 = 1 := Nat.clog_eq_one (le_refl 2) (le_refl 2)
  rw [h4]
  norm_num

/-- The binary32 value of the literal `0.8f`. -/
theorem roundF32_08 : roundF32 ((4 : ℚ) / 5) = 13421773 / 16777216 := by
  have hfl : ⌊((13421772 : ℚ) + 4 / 5)⌋ = 13421772 := by
    rw [Int.floor_eq_iff]
    constructor <;> norm_num
  have hgt : (1 : ℚ) / 2 < ((13421772 : ℚ) + 4 / 5) - ((13421772 : ℤ) : ℚ) := by
    norm_num
  have hm : rnEven ((4 : ℚ) / 5 * 2 ^ ((23 : ℤ) - (-1))) = 13421772 + 1 := by
    have hx : (4 : ℚ) / 5 * 2 ^ ((23 : ℤ) - (-1)) = 13421772 + 4 / 5 := by
      norm_num
    rw [hx]
    exact rnEven_eq_ceil hfl hgt
  have h := roundF32_pos (by norm_num) log2_08 hm
  rw [h]
  norm_num

theorem log2_3125 : Int.log 2 ((3125 : ℚ) / 1000) = 1 := by
  rw [Int.log_of_one_le_right 2 (by norm_num)]
  have h3 : (⌊(3125 / 1000 : ℚ)⌋₊) = 3 := by
    rw [Nat.floor_eq_iff (by norm_num)]
    norm_num
  rw [h3]
  have h4 : Nat.log 2 3 = 1 :=
    Nat.log_eq_of_pow_le_of_lt_pow (by norm_num) (by norm_num)
  rw [h4]
  norm_num

/-- The binary32 value of the literal `3.125f`: exactly 25/8, since 3.125 is
a dyadic rational. -/
theorem roundF32_3125 : roundF32 ((3125 : ℚ) / 1000) = 25 / 8 := by
  have hfl : ⌊((13107200 : ℚ))⌋ = 13107200 := by
    rw [Int.floor_eq_iff]
    constructor <;> norm_num
  have hlt : ((13107200 : ℚ)) - ((13107200 : ℤ) : ℚ) < 1 / 2 := by norm_num
  have hm : rnEven ((3125 : ℚ) / 1000 * 2 ^ ((23 : ℤ) - 1)) = 13107200 := by
    have hx : (3125 : ℚ) / 1000 * 2 ^ ((23 : ℤ) - 1) = 13107200 := by norm_num
    rw [hx]
    exact rnEven_eq_floor hfl hlt
  have h := roundF32_pos (by norm_num) log2_3125 hm
  rw [h]
  norm_num

theorem log2_64 : Int.log 2 ((32 : ℚ) / 5) = 2 := by
  rw [Int.log_of_one_le_right 2 (by norm_num)]
  have h3 : (⌊(32 / 5 : ℚ)⌋₊) = 6 := by
    rw [Nat.floor_eq_iff (by norm_num)]
    norm_num
  rw [h3]
  have h4 : Nat.log 2 6 = 2 :=
    Nat.log_eq_of_pow_le_of_lt_pow (by norm_num) (by norm_num)
  rw [h4]
  norm_num

/-- The binary32 value of the literal `6.4f`. -/
theorem roundF32_64 : roundF32 ((32 : ℚ) / 5) = 13421773 / 2097152 := by
  have hfl : ⌊((13421772 : ℚ) + 4 / 5)⌋ = 13421772 := by
    rw [Int.floor_eq_iff]
    constructor <;> norm_num
  have hgt : (1 : ℚ) / 2 < ((13421772 : ℚ) + 4 / 5) - ((13421772 : ℤ) : ℚ) := by
    norm_num
  have hm : rnEven ((32 : ℚ) / 5 * 2 ^ ((23 : ℤ) - 2)) = 13421772 + 1 := by
    have hx : (32 : ℚ) / 5 * 2 ^ ((23 : ℤ) - 2) = 13421772 + 4 / 5 := by
      norm_num
    rw [hx]
    exact rnEven_eq_ceil hfl hgt
  have h := roundF32_pos (by norm_num) log2_64 hm
  rw [h]
  norm_num

theorem log2_4 : Int.log 2 ((4 : ℚ)) = 2 := by
  rw [Int.log_of_one_le_right 2 (by norm_num)]
  have h3 : (⌊(4 : ℚ)⌋₊) = 4 := by
    rw [Nat.floor_eq_iff (by norm_num)]
    norm_num
  rw [h3]
  have h4 : Nat.log 2 4 = 2 :=
    Nat.log_eq_of_pow_le_of_lt_pow (by norm_num) (by norm_num)
  rw [h4]
  norm_num

theorem roundF32_4 : roundF32 ((4 : ℚ)) = 4 := by
  have hfl : ⌊((8388608 : ℚ))⌋ = 8388608 := by
    rw [Int.floor_eq_iff]
    constructor <;> norm_num
  have hlt : ((8388608 : ℚ)) - ((8388608 : ℤ) : ℚ) < 1 / 2 := by norm_num
  have hm : rnEven ((4 : ℚ) * 2 ^ ((23 : ℤ) - 2)) = 8388608 := by
    have hx : (4 : ℚ) * 2 ^ ((23 : ℤ) - 2) = 8388608 := by norm_num
    rw [hx]
    exact rnEven_eq_floor hfl hlt
  have h := roundF32_pos (by norm_num) log2_4 hm
  rw [h]
  norm_num

theorem log2_40ish : Int.log 2 ((335544325 : ℚ) / 8388608) = 5 := by
  rw [Int.log_of_one_le_right 2 (by norm_num)]
  have h3 : (⌊(335544325 / 8388608 : ℚ)⌋₊) = 40 := by
    rw [Nat.floor_eq_iff (by norm_num)]
    norm_num
  rw [h3]
  have h4 : Nat.log 2 40 = 5 :=
    Nat.log_eq_of_pow_le_of_lt_pow (by norm_num) (by norm_num)
  rw [h4]
  norm_num

/-- The float product `50.0f * 0.8f` rounds to exactly `40.0f`: the exact
product 40.0000005960… lies within half an ulp of 40. -/
theorem fmul32_power_case : fmul32 50 (roundF32 ((4 : ℚ) / 5)) = 40 := by
  rw [roundF32_08]
  unfold fmul32
  have hq : (50 : ℚ) * (13421773 / 16777216) = 335544325 / 8388608 := by
    norm_num
  rw [hq]
  have hfl : ⌊((10485760 : ℚ) + 5 / 32)⌋ = 10485760 := by
    rw [Int.floor_eq_iff]
    constructor <;> norm_num
  have hlt : ((10485760 : ℚ) + 5 / 32) - ((10485760 : ℤ) : ℚ) < 1 / 2 := by
    norm_num
  have hm : rnEven ((335544325 : ℚ) / 8388608 * 2 ^ ((23 : ℤ) - 5)) =
      10485760 := by
    have hx : (335544325 : ℚ) / 8388608 * 2 ^ ((23 : ℤ) - 5) =
        10485760 + 5 / 32 := by
      norm_num
    rw [hx]
    exact rnEven_eq_floor hfl hlt
  have h := roundF32_pos (by norm_num) log2_40ish hm
  rw [h]
  norm_num

/-- The float quotient `100.0f / 25.0f` is exactly `4.0f`. -/
theorem fdiv32_current_case : fdiv32 100 25 = some 4 := by
  unfold fdiv32
  rw [if_neg (by norm_num : ¬ ((25 : ℚ) = 0))]
  have hq : (100 : ℚ) / 25 = 4 := by norm_num
  rw [hq, roundF32_4]

/-! ## Claim theorems -/

/-- C1 (amended): when `begin(transport)` succeeds, the controller
immediately applies the ATDev 32V/2A calibration profile — the `32V/2A
(alt)` row of the §6 table, not the `32V/2A (default)` row: afterwards the
stored calibration constant is 32000, the stored current divisor is 3.125
(= 25/8, exact in binary32) and the stored power multiplier is the binary32
value of 6.4, and that calibration constant and the corresponding
configuration word (32V bus range, gain 1 ±40mV, 12-bit bus ADC, 12-bit
1-sample 532µs shunt ADC, continuous shunt-and-bus mode) have been written
to the device. -/
theorem C1_begin_default_is_atdev_32V_2A (s : State) (calOk cfgOk : Bool) :
    (begin s true calOk cfgOk).1 = true ∧
    (begin s true calOk cfgOk).2.1.calValue = 32000 ∧
    (begin s true calOk cfgOk).2.1.currentDivider_mA = 25 / 8 ∧
    (begin s true calOk cfgOk).2.1.powerMultiplier_mW = roundF32 (32 / 5) ∧
    (begin s true calOk cfgOk).2.2 =
      [Transaction.write16 INA220_REG_CALIBRATION 32000,
       Transaction.write16 INA220_REG_CONFIG
         (INA220_CONFIG_BVOLTAGERANGE_32V ||| INA220_CONFIG_GAIN_1_40MV |||
          INA220_CONFIG_BADCRES_12BIT |||
          INA220_CONFIG_SADCRES_12BIT_1S_532US |||
          INA220_CONFIG_MODE_SANDBVOLT_CONTINUOUS)] := by
  refine ⟨rfl, rfl, ?_, rfl, rfl⟩
  exact roundF32_3125

/-- C1 counterexample: after a successful `begin`, the stored calibration
constant is 32000 (the ATDev 32V/2A profile applied by `init`), so the
claimed value 4096 does not hold. -/
theorem C1_counterexample :
    (begin (mkATDev_INA220 false) true true true).2.1.calValue = 32000 ∧
    Decidable.decide
      ((begin (mkATDev_INA220 false) true true true).2.1.calValue = 4096) =
      false :=
  ⟨rfl, rfl⟩

/-- C2 counterexample: the controller does not expose five
calibration-profile-selection operations; `src/ATDev_INA220.cpp` defines
exactly four `setCalibration_*` member functions, enumerated by
`CalProfile`. -/
theorem C2_counterexample :
    Decidable.decide (Fintype.card CalProfile = 5) = false := by decide

/-- C2 (amended): the Device Controller exposes exactly four distinct
no-argument calibration-profile-selection operations (ATDev 32V/2A,
32V/2A, 32V/1A, 16V/400mA), pairwise distinguished by the calibration
constant they store, and each stores only constants fixed at compile time:
for every profile the stored calibration constant and conversion scalars
equal the per-profile constants, independent of the prior state and of the
transport outcomes. -/
theorem C2_four_calibration_operations (s : State) (calOk cfgOk : Bool) :
    Fintype.card CalProfile = 4 ∧
    List.Nodup (List.map calConst
      [CalProfile.atdev_32V_2A, CalProfile.std_32V_2A,
       CalProfile.std_32V_1A, CalProfile.std_16V_400mA]) ∧
    (∀ p : CalProfile,
      (applyCalibration p s calOk cfgOk).1.calValue = calConst p) ∧
    (∀ p : CalProfile,
      (applyCalibration p s calOk cfgOk).1.currentDivider_mA =
        dividerConst p) ∧
    (∀ p : CalProfile,
      (applyCalibration p s calOk cfgOk).1.powerMultiplier_mW =
        multiplierConst p) := by
  refine ⟨by decide, by decide, fun p => ?_, fun p => ?_, fun p => ?_⟩ <;>
    cases p <;> rfl

/-- C3: on every call, `getCurrent_raw` and `getPower_raw` each issue
exactly two bus transactions in this order: first a write of the currently
stored calibration constant to the calibration register (0x05), then a read
of the current register (0x04) respectively the power register (0x03); the
calibration write precedes the data read on every call, for every state and
every transport outcome. -/
theorem C3_raw_reads_cal_write_then_read (s : State) (calOk : Bool) (v : ℕ)
    (rdOk : Bool) :
    (getCurrent_raw s calOk v rdOk).2.2 =
      [Transaction.write16 0x05 s.calValue, Transaction.read16 0x04] ∧
    (getPower_raw s calOk v rdOk).2.2 =
      [Transaction.write16 0x05 s.calValue, Transaction.read16 0x03] :=
  ⟨rfl, rfl⟩

/-- C4: for every multi-step operation (each calibration-profile selection,
`getCurrent_raw`, `getPower_raw`), the flag returned by `success()`
afterwards equals the outcome of the operation's final bus transaction
alone, whatever the outcome `calOk` of the superseded intermediate
calibration write: it is `false` exactly when the final step failed, and
`true` when only the intermediate step failed while the final step
succeeded. -/
theorem C4_success_reflects_final_step_only (s : State)
    (calOk cfgOk : Bool) (v : ℕ) (rdOk : Bool) :
    success (setCalibration_ATDev_32V_2A s calOk cfgOk).1 = cfgOk ∧
    success (setCalibration_32V_2A s calOk cfgOk).1 = cfgOk ∧
    success (setCalibration_32V_1A s calOk cfgOk).1 = cfgOk ∧
    success (setCalibration_16V_400mA s calOk cfgOk).1 = cfgOk ∧
    success (getCurrent_raw s calOk v rdOk).1 = rdOk ∧
    success (getPower_raw s calOk v rdOk).1 = rdOk :=
  ⟨rfl, rfl, rfl, rfl, rfl, rfl⟩

/-- C5: for each calibration-profile selection operation, the value written
to the calibration register and the stored conversion scalars equal the §6
table row for that profile (ATDev/alt 32V/2A: cal 32000, divisor 3.125,
multiplier 6.4; 32V/2A: 4096, 10, 2; 32V/1A: 10240, 25, 0.8; 16V/400mA:
8192, 20, 1.0 — the non-dyadic entries 6.4 and 0.8 as their binary32
values), and the configuration word written combines the documented
bus-voltage range and gain for that profile with the 12-bit bus ADC,
12-bit/1-sample/532µs shunt ADC and continuous shunt-and-bus sampling mode
codes. -/
theorem C5_profiles_match_table (s : State) (calOk cfgOk : Bool) :
    ((setCalibration_ATDev_32V_2A s calOk cfgOk).2 =
      [Transaction.write16 INA220_REG_CALIBRATION 32000,
       Transaction.write16 INA220_REG_CONFIG
         (INA220_CONFIG_BVOLTAGERANGE_32V ||| INA220_CONFIG_GAIN_1_40MV |||
          INA220_CONFIG_BADCRES_12BIT |||
          INA220_CONFIG_SADCRES_12BIT_1S_532US |||
          INA220_CONFIG_MODE_SANDBVOLT_CONTINUOUS)] ∧
     (setCalibration_ATDev_32V_2A s calOk cfgOk).1.currentDivider_mA =
       25 / 8 ∧
     (setCalibration_ATDev_32V_2A s calOk cfgOk).1.powerMultiplier_mW =
       roundF32 (32 / 5)) ∧
    ((setCalibration_32V_2A s calOk cfgOk).2 =
      [Transaction.write16 INA220_REG_CALIBRATION 4096,
       Transaction.write16 INA220_REG_CONFIG
         (INA220_CONFIG_BVOLTAGERANGE_32V ||| INA220_CONFIG_GAIN_8_320MV |||
          INA220_CONFIG_BADCRES_12BIT |||
          INA220_CONFIG_SADCRES_12BIT_1S_532US |||
          INA220_CONFIG_MODE_SANDBVOLT_CONTINUOUS)] ∧
     (setCalibration_32V_2A s calOk cfgOk).1.currentDivider_mA = 10 ∧
     (setCalibration_32V_2A s calOk cfgOk).1.powerMultiplier_mW = 2) ∧
    ((setCalibration_32V_1A s calOk cfgOk).2 =
      [Transaction.write16 INA220_REG_CALIBRATION 10240,
       Transaction.write16 INA220_REG_CONFIG
         (INA220_CONFIG_BVOLTAGERANGE_32V ||| INA220_CONFIG_GAIN_8_320MV |||
          INA220_CONFIG_BADCRES_12BIT |||
          INA220_CONFIG_SADCRES_12BIT_1S_532US |||
          INA220_CONFIG_MODE_SANDBVOLT_CONTINUOUS)] ∧
     (setCalibration_32V_1A s calOk cfgOk).1.currentDivider_mA = 25 ∧
     (setCalibration_32V_1A s calOk cfgOk).1.powerMultiplier_mW =
       roundF32 (4 / 5)) ∧
    ((setCalibration_16V_400mA s calOk cfgOk).2 =
      [Transaction.write16 INA220_REG_CALIBRATION 8192,
       Transaction.write16 INA220_REG_CONFIG
         (INA220_CONFIG_BVOLTAGERANGE_16V ||| INA220_CONFIG_GAIN_1_40MV |||
          INA220_CONFIG_BADCRES_12BIT |||
          INA220_CONFIG_SADCRES_12BIT_1S_532US |||
          INA220_CONFIG_MODE_SANDBVOLT_CONTINUOUS)] ∧
     (setCalibration_16V_400mA s calOk cfgOk).1.currentDivider_mA = 20 ∧
     (setCalibration_16V_400mA s calOk cfgOk).1.powerMultiplier_mW = 1) := by
  refine ⟨⟨rfl, ?_, rfl⟩, ⟨rfl, rfl, rfl⟩, ⟨rfl, rfl, rfl⟩, ⟨rfl, rfl, rfl⟩⟩
  exact roundF32_3125

/-- C6: for every 16-bit value `v` read from the bus-voltage register,
`getBusVoltage_raw` returns `v` shifted right by 3 (discarding the 3
low-order status bits) multiplied by 4, and the int16 cast preserves that
value; consequently the result depends only on the upper 13 bits — any `w`
with the same upper 13 bits (in particular `v` with its low 3 status bits
set versus cleared) yields the same result. -/
theorem C6_bus_voltage_shift_and_scale (s t : State) (rdOk rdOk2 : Bool)
    (v w : ℕ) (hv : v < 2 ^ 16) (hw : w < 2 ^ 16)
    (hvw : v >>> 3 = w >>> 3) :
    (getBusVoltage_raw s v rdOk).2.1 = ((v >>> 3 : ℕ) : ℤ) * 4 ∧
    (getBusVoltage_raw s v rdOk).2.1 = (getBusVoltage_raw t w rdOk2).2.1 := by
  have key : ∀ (x : State) (b : Bool) (u : ℕ), u < 2 ^ 16 →
      (getBusVoltage_raw x u b).2.1 = ((u >>> 3 : ℕ) : ℤ) * 4 := by
    intro x b u hu
    have hmod : u % 2 ^ 16 = u := Nat.mod_eq_of_lt hu
    have hdiv : u >>> 3 = u / 8 := by
      simp [Nat.shiftRight_eq_div_pow]
    have hlt : (u >>> 3) * 4 < 32768 := by
      rw [hdiv]; omega
    show toInt16 (((u % 2 ^ 16) >>> 3) * 4) = ((u >>> 3 : ℕ) : ℤ) * 4
    rw [hmod, toInt16_of_lt hlt]
    push_cast
    ring
  refine ⟨key s rdOk v hv, ?_⟩
  rw [key s rdOk v hv, key t rdOk2 w hw, hvw]

/-- C6 witness: at the raw register value 11 = 0b1011 (status bits 011 set)
the result is (11 >>> 3) * 4 = 4, and it coincides with the result at raw
value 8 = 0b1000, which has the same upper 13 bits. -/
theorem C6_bus_voltage_shift_and_scale_witness :
    (getBusVoltage_raw (mkATDev_INA220 false) 11 true).2.1 =
      (((11 : ℕ) >>> 3 : ℕ) : ℤ) * 4 ∧
    (getBusVoltage_raw (mkATDev_INA220 false) 11 true).2.1 =
      (getBusVoltage_raw (mkATDev_INA220 true) 8 false).2.1 :=
  C6_bus_voltage_shift_and_scale (mkATDev_INA220 false) (mkATDev_INA220 true)
    true false 11 8 (by decide) (by decide) (by decide)

/-- C7: after `powerSave(on)`, the single configuration-register write
carries the power-down mode code (`on = true`) or the continuous
shunt-and-bus sampling mode code (`on = false`) in its 3 low-order bits,
and every other bit of the written word is zero, regardless of the
register's previous contents: the bit-slice write builds its payload from
the mode code alone and reads nothing back. -/
theorem C7_powerSave_nonpreserving_mode_write (s : State) (writeOk : Bool) :
    (powerSave s true writeOk).2 =
      [Transaction.write16 INA220_REG_CONFIG
        (bitsWritePayload INA220_CONFIG_MODE_POWERDOWN 0 3)] ∧
    (powerSave s false writeOk).2 =
      [Transaction.write16 INA220_REG_CONFIG
        (bitsWritePayload INA220_CONFIG_MODE_SANDBVOLT_CONTINUOUS 0 3)] ∧
    bitsWritePayload INA220_CONFIG_MODE_POWERDOWN 0 3 % 8 =
      INA220_CONFIG_MODE_POWERDOWN ∧
    bitsWritePayload INA220_CONFIG_MODE_POWERDOWN 0 3 / 8 = 0 ∧
    bitsWritePayload INA220_CONFIG_MODE_SANDBVOLT_CONTINUOUS 0 3 % 8 =
      INA220_CONFIG_MODE_SANDBVOLT_CONTINUOUS ∧
    bitsWritePayload INA220_CONFIG_MODE_SANDBVOLT_CONTINUOUS 0 3 / 8 = 0 :=
  ⟨rfl, rfl, by decide, by decide, by decide, by decide⟩

/-- C8: with the 32V/1A profile active (divisor 25, multiplier 0.8f), a
current-register reading of raw 100 makes `getCurrent_mA` return exactly
4.0, and a power-register reading of raw 50 makes `getPower_mW` return
exactly 40.0 (the float product 50·0.8f rounds to exactly 40.0); in
general `getCurrent_mA` divides the raw current reading by the stored
divisor and `getPower_mW` multiplies the raw power reading by the stored
multiplier, in binary32 arithmetic. -/
theorem C8_conversion_scalars (s : State) (calOk cfgOk calOk2 rdOk : Bool) :
    (getCurrent_mA (setCalibration_32V_1A s calOk cfgOk).1
        calOk2 100 rdOk).2.1 = some 4 ∧
    (getPower_mW (setCalibration_32V_1A s calOk cfgOk).1
        calOk2 50 rdOk).2.1 = 40 ∧
    (∀ (t : State) (k r : Bool) (v : ℕ),
      (getCurrent_mA t k v r).2.1 =
        fdiv32 ((toInt16 v : ℤ) : ℚ) t.currentDivider_mA) ∧
    (∀ (t : State) (k r : Bool) (v : ℕ),
      (getPower_mW t k v r).2.1 =
        fmul32 ((toInt16 v : ℤ) : ℚ) t.powerMultiplier_mW) := by
  refine ⟨?_, ?_, fun t k r v => rfl, fun t k r v => rfl⟩
  · calc (getCurrent_mA (setCalibration_32V_1A s calOk cfgOk).1
            calOk2 100 rdOk).2.1
        = fdiv32 ((toInt16 100 : ℤ) : ℚ) 25 := rfl
      _ = some 4 := by
          rw [toInt16_of_lt (by norm_num)]
          push_cast
          exact fdiv32_current_case
  · calc (getPower_mW (setCalibration_32V_1A s calOk cfgOk).1
            calOk2 50 rdOk).2.1
        = fmul32 ((toInt16 50 : ℤ) : ℚ) (roundF32 (4 / 5)) := rfl
      _ = 40 := by
          rw [toInt16_of_lt (by norm_num)]
          push_cast
          exact fmul32_power_case

/-- C9: for every 16-bit register value, `getBusVoltage_raw` returns a
non-negative multiple of 4 that is at most 32764: the right shift by 3
bounds the intermediate at 8191 before the multiply by 4, so the int16 cast
never wraps to a negative value. -/
theorem C9_bus_voltage_range (s : State) (rdOk : Bool) (v : ℕ)
    (hv : v < 2 ^ 16) :
    0 ≤ (getBusVoltage_raw s v rdOk).2.1 ∧
    (4 : ℤ) ∣ (getBusVoltage_raw s v rdOk).2.1 ∧
    (getBusVoltage_raw s v rdOk).2.1 ≤ 32764 := by
  have hmod : v % 2 ^ 16 = v := Nat.mod_eq_of_lt hv
  have hdiv : v >>> 3 = v / 8 := by simp [Nat.shiftRight_eq_div_pow]
  have hlt : (v >>> 3) * 4 < 32768 := by rw [hdiv]; omega
  have hval : (getBusVoltage_raw s v rdOk).2.1 =
      (((v >>> 3) * 4 : ℕ) : ℤ) := by
    show toInt16 (((v % 2 ^ 16) >>> 3) * 4) = (((v >>> 3) * 4 : ℕ) : ℤ)
    rw [hmod, toInt16_of_lt hlt]
  rw [hval]
  refine ⟨by positivity, ⟨((v >>> 3 : ℕ) : ℤ), by push_cast; ring⟩, ?_⟩
  have hb : (v >>> 3) * 4 ≤ 32764 := by rw [hdiv]; omega
  exact_mod_cast hb

/-- C9 witness: at the largest 16-bit register value 65535 the result is
non-negative, divisible by 4 and at most 32764 (it is 32764). -/
theorem C9_bus_voltage_range_witness :
    0 ≤ (getBusVoltage_raw (mkATDev_INA220 false) 65535 true).2.1 ∧
    (4 : ℤ) ∣ (getBusVoltage_raw (mkATDev_INA220 false) 65535 true).2.1 ∧
    (getBusVoltage_raw (mkATDev_INA220 false) 65535 true).2.1 ≤ 32764 :=
  C9_bus_voltage_range (mkATDev_INA220 false) true 65535 (by decide)

/-- C10: a freshly constructed controller stores a current divisor of 0 and
a power multiplier of 0.0; `getCurrent_mA` called in that state divides by
the zero divisor, producing a non-finite float (`none` in the model, with
no guard in the code), and `getPower_mW` in the same state returns 0 for
every raw reading. -/
theorem C10_unconfigured_division_by_zero (s0 calOk rdOk : Bool) (v : ℕ) :
    (mkATDev_INA220 s0).currentDivider_mA = 0 ∧
    (mkATDev_INA220 s0).powerMultiplier_mW = 0 ∧
    (getCurrent_mA (mkATDev_INA220 s0) calOk v rdOk).2.1 = none ∧
    (getPower_mW (mkATDev_INA220 s0) calOk v rdOk).2.1 = 0 := by
  refine ⟨rfl, rfl, ?_, ?_⟩
  · show fdiv32 ((toInt16 v : ℤ) : ℚ) 0 = none
    simp [fdiv32]
  · show fmul32 ((toInt16 v : ℤ) : ℚ) 0 = 0
    simp [fmul32, roundF32]

end INA220
